import Mathlib

/-!
Verification development for the node abstraction and dual-backend
connectivity layer of the Karbowanec wallet (`src/CryptoNoteWrapper.cpp`).

Machine bytes are modelled as `Nat` values below 256, byte sequences as
`List Nat`, and C++ `std::string` values carrying binary data as the list
of their byte values.  Functions visible in `CryptoNoteWrapper.cpp` are
translated directly; the CryptoNote library helpers they delegate to
(hex codec, transaction-extra encoding, RPC status sentinels, core and
checkpoint state) are not part of the visible sources and are modelled
from the specification, as marked on each definition.
-/

namespace WalletGui

/-- Modelled from the spec: hex-digit decoding used by the payment-identifier
parser (`Common::fromHex` of the CryptoNote library, not in the visible
sources).  Accepts `0`-`9`, `a`-`f` and `A`-`F`. -/
def hexVal? (c : Char) : Option Nat :=
  if 48 ≤ c.toNat ∧ c.toNat ≤ 57 then some (c.toNat - 48)
  else if 97 ≤ c.toNat ∧ c.toNat ≤ 102 then some (c.toNat - 97 + 10)
  else if 65 ≤ c.toNat ∧ c.toNat ≤ 70 then some (c.toNat - 65 + 10)
  else none

/-- Modelled from the spec: the lowercase hexadecimal alphabet used by the
hex encoder (`Common::podToHex`, not in the visible sources). -/
def hexAlphabet : List Char := "0123456789abcdef".data

/-- Modelled from the spec: one nibble rendered as a lowercase hex digit. -/
def hexDigitChar (n : Nat) : Char := hexAlphabet.getD n '0'

/-- Modelled from the spec: byte sequence rendered as lowercase hex, two
digits per byte (`Common::podToHex`). -/
def bytesToHex : List Nat → List Char
  | [] => []
  | b :: rest => hexDigitChar (b / 16) :: hexDigitChar (b % 16) :: bytesToHex rest

/-- Modelled from the spec: `Common::podToHex` producing a string. -/
def podToHex (bs : List Nat) : String := String.mk (bytesToHex bs)

/-- Modelled from the spec: decode a hex character sequence into bytes,
failing on an odd length or a non-hex character. -/
def hexToBytes? : List Char → Option (List Nat)
  | [] => some []
  | [_] => none
  | c1 :: c2 :: rest => do
    let h ← hexVal? c1
    let l ← hexVal? c2
    let tl ← hexToBytes? rest
    pure ((h * 16 + l) :: tl)

/-- `parsePaymentId` (`CryptoNoteWrapper.cpp`, delegating to
`CryptoNote::parsePaymentId`): modelled from the spec, a payment identifier
is a 64-character hex string decoding to a 32-byte identifier. -/
def parsePaymentId (s : String) : Option (List Nat) :=
  if s.length = 64 then hexToBytes? s.data else none

/-- Modelled from the spec: the all-zero 32-byte identifier sentinel
(`CryptoNote::NULL_HASH`). -/
def NULL_HASH : List Nat := List.replicate 32 0

/-- Modelled from the spec: the transaction-extra tag byte for an extra-nonce
field. -/
def TX_EXTRA_NONCE : Nat := 2

/-- Modelled from the spec: the tag byte that marks a payment identifier
inside an extra-nonce blob. -/
def TX_EXTRA_NONCE_PAYMENT_ID : Nat := 0

/-- Modelled from the spec: wrap a payment identifier into an extra-nonce
blob (`CryptoNote::setPaymentIdToTransactionExtraNonce`). -/
def setPaymentIdToTransactionExtraNonce (pid : List Nat) : List Nat :=
  TX_EXTRA_NONCE_PAYMENT_ID :: pid

/-- Modelled from the spec: append an extra-nonce field to a transaction's
extra bytes (`CryptoNote::addExtraNonceToTransactionExtra`); the nonce size
must fit the one-byte size field. -/
def addExtraNonceToTransactionExtra (extra nonce : List Nat) : Option (List Nat) :=
  if 255 < nonce.length then none
  else some (extra ++ TX_EXTRA_NONCE :: nonce.length :: nonce)

/-- Modelled from the spec: scan a transaction-extra byte sequence for the
first extra-nonce field, skipping a 32-byte public-key field (tag 1) and
stopping at padding (tag 0) or an unknown tag. -/
def findExtraNonce : List Nat → Option (List Nat)
  | [] => none
  | 0 :: _ => none
  | 1 :: rest => if 32 ≤ rest.length then findExtraNonce (rest.drop 32) else none
  | 2 :: n :: rest => if n ≤ rest.length then some (rest.take n) else none
  | _ :: _ => none
termination_by l => l.length
decreasing_by simp_wf; omega

/-- Modelled from the spec: extract an embedded payment identifier from a
transaction's extra bytes (`CryptoNote::getPaymentIdFromTxExtra`): the
extra-nonce field must consist of the payment-id tag byte followed by
exactly 32 identifier bytes. -/
def getPaymentIdFromTxExtra (extra : List Nat) : Option (List Nat) :=
  match findExtraNonce extra with
  | some (t :: pid) =>
    if t = TX_EXTRA_NONCE_PAYMENT_ID ∧ pid.length = 32 then some pid else none
  | _ => none

/-- Error surface of `convertPaymentId` (`CryptoNoteWrapper.cpp` lines
58-80): the format-parse failure and the encoding-step failure are thrown
as distinct runtime errors. -/
inductive ConvErr where
  | formatError (msg : String)
  | encodeError (msg : String)
  deriving DecidableEq, Repr

/-- `convertPaymentId` (`CryptoNoteWrapper.cpp` lines 58-80), parametrised
by the extra-nonce encoder so that paths that never reach the encoder are
provably encoder-independent. -/
def convertPaymentIdAux (enc : List Nat → List Nat → Option (List Nat))
    (paymentIdString : String) : Except ConvErr (List Nat) :=
  if paymentIdString = "" then .ok []
  else
    match parsePaymentId paymentIdString with
    | none => .error (.formatError
        ("Payment id has invalid format: \"" ++ paymentIdString ++
          "\", expected 64-character string"))
    | some paymentId =>
      let extraNonce := setPaymentIdToTransactionExtraNonce paymentId
      match enc [] extraNonce with
      | none => .error (.encodeError
          ("Something went wrong with payment_id. Please check its format: \"" ++
            paymentIdString ++ "\", expected 64-character string"))
      | some extra => .ok extra

/-- `convertPaymentId` (`CryptoNoteWrapper.cpp` lines 58-80) with the real
extra-nonce encoder. -/
def convertPaymentId (paymentIdString : String) : Except ConvErr (List Nat) :=
  convertPaymentIdAux addExtraNonceToTransactionExtra paymentIdString

/-- `extractPaymentId` (`CryptoNoteWrapper.cpp` lines 82-90): the hex of the
embedded identifier when present and distinct from `NULL_HASH`, otherwise
the empty string. -/
def extractPaymentId (extra : List Nat) : String :=
  match getPaymentIdFromTxExtra extra with
  | some paymentId => if paymentId ≠ NULL_HASH then podToHex paymentId else ""
  | none => ""

/-- Composition of the codec: convert an identifier string to extra bytes
and extract it back, `none` when the conversion fails. -/
def roundTrip (id : String) : Option String :=
  (convertPaymentId id).toOption.map extractPaymentId

/-- Lowercase-hex check on a string: every character is `0`-`9` or
`a`-`f`. -/
def isLowerHex (s : String) : Bool :=
  s.data.all fun c =>
    decide ((48 ≤ c.toNat ∧ c.toNat ≤ 57) ∨ (97 ≤ c.toNat ∧ c.toNat ≤ 102))

/-- Modelled from the spec: the RPC busy sentinel status string. -/
def CORE_RPC_STATUS_BUSY : String := "BUSY"

/-- Modelled from the spec: the RPC OK sentinel status string. -/
def CORE_RPC_STATUS_OK : String := "OK"

/-- `interpret_rpc_response` (`CryptoNoteWrapper.cpp` lines 92-104). -/
def interpret_rpc_response (ok : Bool) (status : String) : String :=
  if ok then
    if status = CORE_RPC_STATUS_BUSY then "daemon is busy. Please try later"
    else if status ≠ CORE_RPC_STATUS_OK then status
    else ""
  else "possible lost connection to daemon"

/-- Modelled from the spec: the four key fields of a CryptoNote account
(`CryptoNote::AccountKeys`), each 32 bytes. -/
structure AccountKeys where
  spendPublicKey : List Nat
  viewPublicKey : List Nat
  spendSecretKey : List Nat
  viewSecretKey : List Nat
  deriving Repr

/-- Modelled from the spec: the key fields of the `getblocktemplate` RPC
request (`COMMAND_RPC_GETBLOCKTEMPLATE::request`) that
`RpcNode::getBlockTemplate` populates. -/
structure GetBlockTemplateRequest where
  miner_spend_key : String
  miner_view_key : String
  deriving DecidableEq, Repr

/-- The request population step of `RpcNode::getBlockTemplate`
(`CryptoNoteWrapper.cpp` lines 225-226). -/
def buildGetBlockTemplateRequest (acc : AccountKeys) : GetBlockTemplateRequest :=
  { miner_spend_key := podToHex acc.spendSecretKey
    miner_view_key := podToHex acc.viewSecretKey }

/-- Outcome of one `invokeJsonRpcCommand` call as observed by the adapter:
either an exception escaping the call (connection failure or any other
`std::exception`), or a response carrying a status string, a block-template
blob, a difficulty and a height. -/
inductive RpcOutcome where
  | connectError
  | otherError (msg : String)
  | response (status : String) (blob : String) (difficulty : Nat) (height : Nat)

/-- `RpcNode::getBlockTemplate` (`CryptoNoteWrapper.cpp` lines 221-254) as a
function of the RPC outcome and of the block-blob parser
(`fromBinaryArray`): the boolean result together with the outputs written
on success. -/
def RpcNode.getBlockTemplate {Block : Type} (parse : String → Option Block)
    (o : RpcOutcome) : Bool × Option (Block × Nat × Nat) :=
  match o with
  | .connectError => (false, none)
  | .otherError _ => (false, none)
  | .response status blob difficulty height =>
    if interpret_rpc_response true status = "" then
      match parse blob with
      | none => (false, none)
      | some b => (true, some (b, difficulty, height))
    else (false, none)

/-- `RpcNode::handleBlockFound` (`CryptoNoteWrapper.cpp` lines 256-281) as a
function of the RPC outcome of the `submitblock` call. -/
def RpcNode.handleBlockFound (o : RpcOutcome) : Bool :=
  match o with
  | .connectError => false
  | .otherError _ => false
  | .response status _ _ _ => interpret_rpc_response true status = ""

/-- Connection counters held by the remote adapter's RPC session
(`NodeRpcProxy` state read by lines 189-199 of `CryptoNoteWrapper.cpp`). -/
structure RpcSessionState where
  outConnectionsCount : Nat
  incConnectionsCount : Nat

/-- `RpcNode::getConnectionsCount` (`CryptoNoteWrapper.cpp` lines 189-191):
returns the session's outgoing-connection counter. -/
def RpcNode.getConnectionsCount (s : RpcSessionState) : Nat :=
  s.outConnectionsCount

/-- `RpcNode::getOutgoingConnectionsCount` (`CryptoNoteWrapper.cpp` lines
193-195). -/
def RpcNode.getOutgoingConnectionsCount (s : RpcSessionState) : Nat :=
  s.outConnectionsCount

/-- `RpcNode::getIncomingConnectionsCount` (`CryptoNoteWrapper.cpp` lines
197-199). -/
def RpcNode.getIncomingConnectionsCount (s : RpcSessionState) : Nat :=
  s.incConnectionsCount

/-- Modelled from the spec: one block of the embedded core's chain,
carrying its number of non-coinbase transactions (every stored block also
contains exactly one coinbase transaction). -/
structure BlockEntry where
  txs : Nat

/-- Modelled from the spec: `Core::getBlockchainTransactionsCount`, the
total number of transactions in the chain, coinbase included. -/
def coreBlockchainTransactionsCount (chain : List BlockEntry) : Nat :=
  (chain.map fun b => b.txs + 1).sum

/-- Modelled from the spec: `Core::getCurrentBlockchainHeight`, the number
of blocks in the chain. -/
def coreCurrentBlockchainHeight (chain : List BlockEntry) : Nat :=
  chain.length

/-- `InprocessNode::getTxCount` (`CryptoNoteWrapper.cpp` lines 440-442). -/
def InprocessNode.getTxCount (chain : List BlockEntry) : Nat :=
  coreBlockchainTransactionsCount chain - coreCurrentBlockchainHeight chain

/-- Steps performed by `InprocessNode::init` (`CryptoNoteWrapper.cpp` lines
378-406), in execution order. -/
inductive InitEvent where
  | coreRewind (height : Nat)
  | serverInit
  | callbackNotInitialized
  | nodeInit
  | serverRun
  | serverDeinit
  | coreSave
  | storageShutdown
  | nodeShutdown
  deriving DecidableEq, Repr

/-- The sentinel roll-back height meaning "no rewind"
(`std::numeric_limits<uint32_t>::max()`). -/
def noRollBack : Nat := 4294967295

/-- Trace of `InprocessNode::init` (`CryptoNoteWrapper.cpp` lines 378-406)
as a function of the configured roll-back height and of whether the P2P
server's configuration step succeeds: after a successful start, the run
loop is followed by server deinit, core save, storage shutdown and node
facade shutdown, in that order. -/
def initTrace (rollBack : Nat) (serverInitOk : Bool) : List InitEvent :=
  (if rollBack ≠ noRollBack then [InitEvent.coreRewind rollBack] else []) ++
    if serverInitOk then
      [InitEvent.serverInit, InitEvent.nodeInit, InitEvent.serverRun,
        InitEvent.serverDeinit, InitEvent.coreSave, InitEvent.storageShutdown,
        InitEvent.nodeShutdown]
    else [InitEvent.serverInit, InitEvent.callbackNotInitialized]

/-- The configuration flags consulted by the checkpoint bootstrap
(`Settings::withoutCheckpoints`, `Settings::isTestnet`). -/
structure BootSettings where
  withoutCheckpoints : Bool
  isTestnet : Bool

/-- Log lines emitted by the checkpoint bootstrap. -/
inductive BootLog where
  | loadingWithoutCheckpoints
  | runningTestnet
  deriving DecidableEq, Repr

/-- Result of the checkpoint bootstrap: the checkpoint set, the log lines,
and whether the remote discovery (DNS) lookup was attempted. -/
structure CheckpointBootstrap where
  set : List (Nat × String)
  logs : List BootLog
  dnsAttempted : Bool
  deriving DecidableEq, Repr

/-- The checkpoint branch of `createInprocessNode` (`CryptoNoteWrapper.cpp`
lines 629-639), as a function of the hardcoded built-in checkpoint list
(`CryptoNote::CHECKPOINTS`, not in the visible sources) and the settings
flags. -/
def checkpointBootstrap (builtin : List (Nat × String)) (s : BootSettings) :
    CheckpointBootstrap :=
  if s.withoutCheckpoints then
    { set := [], logs := [.loadingWithoutCheckpoints], dnsAttempted := false }
  else if s.isTestnet then
    { set := [], logs := [.runningTestnet], dnsAttempted := false }
  else
    { set := builtin, logs := [], dnsAttempted := true }

/-- The all-zero 64-character payment-identifier string. -/
def zeroPaymentIdString : String :=
  "0000000000000000000000000000000000000000000000000000000000000000"

/-- A 64-character uppercase hex payment-identifier string. -/
def upperPaymentIdString : String :=
  "AAAAAAAAAAAAAAAAAAAAAAAAAAAAAAAAAAAAAAAAAAAAAAAAAAAAAAAAAAAAAAAA"

/-- A concrete account whose four keys are pairwise distinct. -/
def accountWithDistinctKeys : AccountKeys :=
  { spendPublicKey := List.replicate 32 1
    viewPublicKey := List.replicate 32 2
    spendSecretKey := List.replicate 32 3
    viewSecretKey := List.replicate 32 4 }

lemma hexVal_lt {c : Char} {v : Nat} (h : hexVal? c = some v) : v < 16 := by
  unfold hexVal? at h
  split_ifs at h with h1 h2 h3 <;> simp only [Option.some.injEq] at h <;> omega

lemma hexDigitChar_of_hexVal {c : Char} {v : Nat} (h : hexVal? c = some v)
    (hlow : (48 ≤ c.toNat ∧ c.toNat ≤ 57) ∨ (97 ≤ c.toNat ∧ c.toNat ≤ 102)) :
    hexDigitChar v = c := by
  unfold hexVal? at h
  split_ifs at h with h1 h2 h3 <;> simp only [Option.some.injEq] at h
  · have hc : c = Char.ofNat (v + 48) := by
      rw [show v + 48 = c.toNat by omega, Char.ofNat_toNat]
    have hv : v ≤ 9 := by omega
    subst hc
    interval_cases v <;> decide
  · have hc : c = Char.ofNat (v + 87) := by
      rw [show v + 87 = c.toNat by omega, Char.ofNat_toNat]
    have hv1 : 10 ≤ v := by omega
    have hv2 : v ≤ 15 := by omega
    subst hc
    interval_cases v <;> decide
  · omega

lemma hexToBytes_length {cs : List Char} {bs : List Nat}
    (h : hexToBytes? cs = some bs) : 2 * bs.length = cs.length := by
  induction cs using hexToBytes?.induct generalizing bs with
  | case1 => simp [hexToBytes?] at h; subst h; rfl
  | case2 c => simp [hexToBytes?] at h
  | case3 c1 c2 rest ih =>
    simp only [hexToBytes?, Option.bind_eq_bind, Option.bind_eq_some,
      Option.pure_def, Option.some.injEq] at h
    obtain ⟨hv, hv1, lv, hv2, tl, htl, hbs⟩ := h
    subst hbs
    have := ih htl
    simp only [List.length_cons]
    omega

lemma hexToBytes_lt {cs : List Char} {bs : List Nat}
    (h : hexToBytes? cs = some bs) : ∀ b ∈ bs, b < 256 := by
  induction cs using hexToBytes?.induct generalizing bs with
  | case1 => simp [hexToBytes?] at h; subst h; simp
  | case2 c => simp [hexToBytes?] at h
  | case3 c1 c2 rest ih =>
    simp only [hexToBytes?, Option.bind_eq_bind, Option.bind_eq_some,
      Option.pure_def, Option.some.injEq] at h
    obtain ⟨hv, hv1, lv, hv2, tl, htl, hbs⟩ := h
    subst hbs
    intro b hb
    rcases List.mem_cons.mp hb with hb | hb
    · have := hexVal_lt hv1
      have := hexVal_lt hv2
      omega
    · exact ih htl b hb

lemma bytesToHex_of_hexToBytes {cs : List Char} {bs : List Nat}
    (h : hexToBytes? cs = some bs)
    (hlow : ∀ c ∈ cs, (48 ≤ c.toNat ∧ c.toNat ≤ 57) ∨ (97 ≤ c.toNat ∧ c.toNat ≤ 102)) :
    bytesToHex bs = cs := by
  induction cs using hexToBytes?.induct generalizing bs with
  | case1 => simp [hexToBytes?] at h; subst h; rfl
  | case2 c => simp [hexToBytes?] at h
  | case3 c1 c2 rest ih =>
    simp only [hexToBytes?, Option.bind_eq_bind, Option.bind_eq_some,
      Option.pure_def, Option.some.injEq] at h
    obtain ⟨hv, hv1, lv, hv2, tl, htl, hbs⟩ := h
    subst hbs
    have hhv := hexVal_lt hv1
    have hlv := hexVal_lt hv2
    have hdiv : (hv * 16 + lv) / 16 = hv := by omega
    have hmod : (hv * 16 + lv) % 16 = lv := by omega
    simp only [bytesToHex, hdiv, hmod]
    rw [hexDigitChar_of_hexVal hv1 (hlow c1 (by simp)),
      hexDigitChar_of_hexVal hv2 (hlow c2 (by simp)),
      ih htl fun c hc => hlow c (by simp [hc])]

lemma hexDigitChar_inj {m n : Nat} (hm : m < 16) (hn : n < 16)
    (h : hexDigitChar m = hexDigitChar n) : m = n := by
  revert h
  interval_cases m <;> interval_cases n <;> decide

lemma bytesToHex_inj {bs cs : List Nat} (hbs : ∀ b ∈ bs, b < 256)
    (hcs : ∀ b ∈ cs, b < 256) (h : bytesToHex bs = bytesToHex cs) : bs = cs := by
  induction bs generalizing cs with
  | nil => cases cs with
    | nil => rfl
    | cons c cs' => simp [bytesToHex] at h
  | cons b bs' ih =>
    cases cs with
    | nil => simp [bytesToHex] at h
    | cons c cs' =>
      simp only [bytesToHex, List.cons.injEq] at h
      obtain ⟨h1, h2, h3⟩ := h
      have hb : b < 256 := hbs b (by simp)
      have hc : c < 256 := hcs c (by simp)
      have e1 : b / 16 = c / 16 :=
        hexDigitChar_inj (by omega) (by omega) h1
      have e2 : b % 16 = c % 16 :=
        hexDigitChar_inj (by omega) (by omega) h2
      have : b = c := by omega
      subst this
      rw [ih (fun x hx => hbs x (by simp [hx])) (fun x hx => hcs x (by simp [hx])) h3]

lemma findExtraNonce_mem {l r : List Nat} (h : findExtraNonce l = some r) :
    ∀ x ∈ r, x ∈ l := by
  induction l using findExtraNonce.induct with
  | case1 => simp [findExtraNonce] at h
  | case2 rest => simp [findExtraNonce] at h
  | case3 rest hlen ih =>
    rw [findExtraNonce, if_pos hlen] at h
    intro x hx
    exact List.mem_cons_of_mem _ (List.mem_of_mem_drop (ih h x hx))
  | case4 rest hlen =>
    rw [findExtraNonce, if_neg hlen] at h
    exact absurd h (by simp)
  | case5 n rest hlen =>
    rw [findExtraNonce, if_pos hlen] at h
    obtain rfl : rest.take n = r := by simpa using h
    intro x hx
    exact List.mem_cons_of_mem _ (List.mem_cons_of_mem _ (List.mem_of_mem_take hx))
  | case6 n rest hlen =>
    rw [findExtraNonce, if_neg hlen] at h
    exact absurd h (by simp)
  | case7 hd tl h1 h2 h3 =>
    simp [findExtraNonce] at h

lemma parsePaymentId_inv {s : String} {pid : List Nat}
    (hp : parsePaymentId s = some pid) :
    s.length = 64 ∧ hexToBytes? s.data = some pid ∧ pid.length = 32 ∧
      ∀ b ∈ pid, b < 256 := by
  unfold parsePaymentId at hp
  split_ifs at hp with h64
  refine ⟨h64, hp, ?_, hexToBytes_lt hp⟩
  have hlen := hexToBytes_length hp
  have hsd : s.length = s.data.length := rfl
  omega

lemma convert_ok {s : String} {pid : List Nat}
    (hp : parsePaymentId s = some pid) (hlen : pid.length = 32) (hne : s ≠ "") :
    convertPaymentId s = .ok (2 :: 33 :: 0 :: pid) := by
  unfold convertPaymentId convertPaymentIdAux
  rw [if_neg hne, hp]
  simp [setPaymentIdToTransactionExtraNonce, addExtraNonceToTransactionExtra,
    TX_EXTRA_NONCE, TX_EXTRA_NONCE_PAYMENT_ID, hlen]

lemma getPaymentId_encoded {pid : List Nat} (hlen : pid.length = 32) :
    getPaymentIdFromTxExtra (2 :: 33 :: 0 :: pid) = some pid := by
  have hrest : (0 :: pid).length = 33 := by simp [hlen]
  unfold getPaymentIdFromTxExtra
  rw [show findExtraNonce (2 :: 33 :: 0 :: pid) =
      if 33 ≤ (0 :: pid).length then some ((0 :: pid).take 33) else none from by
    simp [findExtraNonce]]
  rw [if_pos (le_of_eq hrest.symm)]
  rw [show (33 : Nat) = (0 :: pid).length from hrest.symm, List.take_length]
  simp [TX_EXTRA_NONCE_PAYMENT_ID, hlen]

lemma extract_encoded {pid : List Nat} (hlen : pid.length = 32) :
    extractPaymentId (2 :: 33 :: 0 :: pid) =
      if pid ≠ NULL_HASH then podToHex pid else "" := by
  unfold extractPaymentId
  rw [getPaymentId_encoded hlen]

lemma getPaymentIdFromTxExtra_mem {extra pid : List Nat}
    (h : getPaymentIdFromTxExtra extra = some pid) : ∀ b ∈ pid, b ∈ extra := by
  unfold getPaymentIdFromTxExtra at h
  rcases hf : findExtraNonce extra with _ | nonce
  · rw [hf] at h; exact absurd h (by simp)
  · rw [hf] at h
    cases nonce with
    | nil => exact absurd h (by simp)
    | cons t rest =>
      have h' : (if t = TX_EXTRA_NONCE_PAYMENT_ID ∧ rest.length = 32
          then some rest else none) = some pid := h
      split_ifs at h' with ht
      obtain rfl : rest = pid := by simpa using h'
      intro b hb
      exact findExtraNonce_mem hf b (List.mem_cons_of_mem _ hb)

lemma coreTxCount_split (chain : List BlockEntry) :
    coreBlockchainTransactionsCount chain =
      (chain.map BlockEntry.txs).sum + chain.length := by
  induction chain with
  | nil => rfl
  | cons b rest ih =>
    simp only [coreBlockchainTransactionsCount, List.map_cons, List.sum_cons,
      List.length_cons] at *
    omega

/-- C2 counterexample: the busy-status message produced by
`interpret_rpc_response` is "daemon is busy. Please try later", not the
"daemon is busy, try later" text stated by the claim. -/
theorem interpret_rpc_busy_message_counterexample :
    interpret_rpc_response true CORE_RPC_STATUS_BUSY ≠ "daemon is busy, try later" := by
  decide

/-- C2 (amended): `interpret_rpc_response` returns "possible lost connection
to daemon" whenever the ok-flag is false; otherwise "daemon is busy. Please
try later" when the status is the busy sentinel; otherwise the raw status
verbatim when it differs from the OK sentinel; otherwise the empty
string. -/
theorem interpret_rpc_response_spec (ok : Bool) (status : String) :
    (ok = false →
      interpret_rpc_response ok status = "possible lost connection to daemon") ∧
    (ok = true → status = CORE_RPC_STATUS_BUSY →
      interpret_rpc_response ok status = "daemon is busy. Please try later") ∧
    (ok = true → status ≠ CORE_RPC_STATUS_BUSY → status ≠ CORE_RPC_STATUS_OK →
      interpret_rpc_response ok status = status) ∧
    (ok = true → status = CORE_RPC_STATUS_OK →
      interpret_rpc_response ok status = "") := by
  cases ok <;>
    refine ⟨?_, ?_, ?_, ?_⟩ <;> intro h <;> simp_all [interpret_rpc_response] <;>
    intro h2 h3 <;> simp_all [CORE_RPC_STATUS_BUSY, CORE_RPC_STATUS_OK]

/-- Witness for C2 at concrete inputs: each of the four branches. -/
theorem interpret_rpc_response_spec_witness :
    interpret_rpc_response false "OK" = "possible lost connection to daemon" ∧
    interpret_rpc_response true "BUSY" = "daemon is busy. Please try later" ∧
    interpret_rpc_response true "Internal error" = "Internal error" ∧
    interpret_rpc_response true "OK" = "" :=
  ⟨(interpret_rpc_response_spec false "OK").1 rfl,
    (interpret_rpc_response_spec true "BUSY").2.1 rfl rfl,
    (interpret_rpc_response_spec true "Internal error").2.2.1 rfl
      (by decide) (by decide),
    (interpret_rpc_response_spec true "OK").2.2.2 rfl rfl⟩

/-- C3 counterexample: for an account whose public and secret keys differ,
the `getblocktemplate` request fields do not carry the hex of the public
keys. -/
theorem getBlockTemplate_request_counterexample :
    (buildGetBlockTemplateRequest accountWithDistinctKeys).miner_spend_key ≠
        podToHex accountWithDistinctKeys.spendPublicKey ∧
      (buildGetBlockTemplateRequest accountWithDistinctKeys).miner_view_key ≠
        podToHex accountWithDistinctKeys.viewPublicKey := by
  decide

/-- C3 (amended): `RpcNode::getBlockTemplate` populates the
`getblocktemplate` request with the hex encoding of the mining account's
spend and view SECRET keys. -/
theorem getBlockTemplate_request_secret_keys (acc : AccountKeys) :
    (buildGetBlockTemplateRequest acc).miner_spend_key =
        podToHex acc.spendSecretKey ∧
      (buildGetBlockTemplateRequest acc).miner_view_key =
        podToHex acc.viewSecretKey :=
  ⟨rfl, rfl⟩

/-- C6: `RpcNode::getBlockTemplate` and `RpcNode::handleBlockFound` return
`false` on every failure outcome of the RPC call (connection loss, any
other exception, non-OK status, unparsable block blob) and `true` exactly
on success; the embedding is a total function of the outcome, reflecting
that every exception is caught at the adapter boundary. -/
theorem rpc_template_calls_fail_to_bool (Block : Type)
    (parse : String → Option Block) :
    RpcNode.getBlockTemplate parse .connectError = (false, none) ∧
    (∀ msg, RpcNode.getBlockTemplate parse (.otherError msg) = (false, none)) ∧
    (∀ status blob difficulty height,
      ((RpcNode.getBlockTemplate parse
          (.response status blob difficulty height)).1 = true ↔
        (interpret_rpc_response true status = "" ∧ (parse blob).isSome = true))) ∧
    RpcNode.handleBlockFound .connectError = false ∧
    (∀ msg, RpcNode.handleBlockFound (.otherError msg) = false) ∧
    (∀ status blob difficulty height,
      (RpcNode.handleBlockFound (.response status blob difficulty height) = true ↔
        interpret_rpc_response true status = "")) := by
  refine ⟨rfl, fun _ => rfl, fun status blob difficulty height => ?_,
    rfl, fun _ => rfl, fun status blob difficulty height => ?_⟩
  · simp only [RpcNode.getBlockTemplate]
    split_ifs with h
    · rcases hp : parse blob with _ | b <;> simp [hp, h]
    · simp [h]
  · simp [RpcNode.handleBlockFound]

/-- Witness for C6 at concrete outcomes: a success and a failure case. -/
theorem rpc_template_calls_fail_to_bool_witness :
    (RpcNode.getBlockTemplate (fun s => some s) (.response "OK" "blob" 1 2)).1 =
        true ∧
      RpcNode.handleBlockFound (.response "BUSY" "" 0 0) ≠ true :=
  ⟨((rpc_template_calls_fail_to_bool String (fun s => some s)).2.2.1
      "OK" "blob" 1 2).mpr ⟨by decide, rfl⟩,
    fun h => by
      have := ((rpc_template_calls_fail_to_bool String (fun s => some s)).2.2.2.2.2
        "BUSY" "" 0 0).mp h
      exact absurd this (by decide)⟩

/-- C7: for a chain with at least one block, `InprocessNode::getTxCount`
equals the core's total blockchain transaction count minus the chain
height, the subtraction never underflows (each block carries a coinbase
transaction), and the result is exactly the number of non-coinbase
transactions. -/
theorem inprocess_getTxCount_spec (chain : List BlockEntry) (h : chain ≠ []) :
    InprocessNode.getTxCount chain =
        coreBlockchainTransactionsCount chain -
          coreCurrentBlockchainHeight chain ∧
      coreCurrentBlockchainHeight chain ≤
        coreBlockchainTransactionsCount chain ∧
      InprocessNode.getTxCount chain = (chain.map BlockEntry.txs).sum := by
  have hs := coreTxCount_split chain
  refine ⟨rfl, ?_, ?_⟩ <;>
    simp only [InprocessNode.getTxCount, coreCurrentBlockchainHeight] <;> omega

/-- Witness for C7 on a two-block chain with five non-coinbase
transactions. -/
theorem inprocess_getTxCount_spec_witness :
    InprocessNode.getTxCount [⟨5⟩, ⟨0⟩] = 5 :=
  ((inprocess_getTxCount_spec [⟨5⟩, ⟨0⟩] (by simp)).2.2).trans (by rfl)

/-- C8: the checkpoint bootstrap selects exactly one configuration: when
checkpoints are disabled the set is empty, the disabled message is logged
and no remote lookup happens, regardless of the testnet flag (so the
disabled branch has priority); otherwise in testnet mode the set is empty
with the testnet log line; otherwise every built-in pair is loaded and the
remote discovery lookup is attempted. -/
theorem checkpointBootstrap_branches (builtin : List (Nat × String))
    (s : BootSettings) :
    (s.withoutCheckpoints = true →
      checkpointBootstrap builtin s =
        { set := [], logs := [.loadingWithoutCheckpoints], dnsAttempted := false }) ∧
    (s.withoutCheckpoints = false → s.isTestnet = true →
      checkpointBootstrap builtin s =
        { set := [], logs := [.runningTestnet], dnsAttempted := false }) ∧
    (s.withoutCheckpoints = false → s.isTestnet = false →
      checkpointBootstrap builtin s =
        { set := builtin, logs := [], dnsAttempted := true }) := by
  obtain ⟨w, t⟩ := s
  cases w <;> cases t <;> simp [checkpointBootstrap]

/-- Witness for C8: the disabled branch wins even with the testnet flag
set, and the normal branch loads the built-in list and attempts the remote
lookup. -/
theorem checkpointBootstrap_branches_witness :
    checkpointBootstrap [(1, "aa")] ⟨true, true⟩ =
        { set := [], logs := [.loadingWithoutCheckpoints], dnsAttempted := false } ∧
      checkpointBootstrap [(1, "aa")] ⟨false, false⟩ =
        { set := [(1, "aa")], logs := [], dnsAttempted := true } :=
  ⟨(checkpointBootstrap_branches [(1, "aa")] ⟨true, true⟩).1 rfl,
    (checkpointBootstrap_branches [(1, "aa")] ⟨false, false⟩).2.2 rfl rfl⟩

/-- C9: whenever `InprocessNode::init` reaches its run phase, the trace ends
with server deinit, core save, storage shutdown and node facade shutdown in
exactly that order, and none of the three teardown steps occurs earlier:
the core's save always precedes the storage shutdown, which always precedes
the facade shutdown. -/
theorem init_teardown_order (rollBack : Nat) :
    ∃ p : List InitEvent,
      initTrace rollBack true =
          p ++ [InitEvent.serverDeinit, InitEvent.coreSave,
            InitEvent.storageShutdown, InitEvent.nodeShutdown] ∧
        InitEvent.coreSave ∉ p ∧ InitEvent.storageShutdown ∉ p ∧
        InitEvent.nodeShutdown ∉ p ∧ InitEvent.serverRun ∈ p := by
  refine ⟨(if rollBack ≠ noRollBack then [InitEvent.coreRewind rollBack] else []) ++
    [InitEvent.serverInit, InitEvent.nodeInit, InitEvent.serverRun],
    ?_, ?_, ?_, ?_, ?_⟩ <;>
    by_cases h : rollBack = noRollBack <;> simp [initTrace, h]

/-- C10: on every session state, the remote adapter's
`getConnectionsCount` coincides with `getOutgoingConnectionsCount`, and its
value is independent of the incoming-connection counter. -/
theorem rpc_connections_count_eq_outgoing (s : RpcSessionState) :
    RpcNode.getConnectionsCount s = RpcNode.getOutgoingConnectionsCount s ∧
      ∀ t : RpcSessionState, s.outConnectionsCount = t.outConnectionsCount →
        RpcNode.getConnectionsCount s = RpcNode.getConnectionsCount t := by
  exact ⟨rfl, fun t h => h⟩

/-- Witness for C10 on concrete session states differing only in the
incoming counter. -/
theorem rpc_connections_count_eq_outgoing_witness :
    RpcNode.getConnectionsCount ⟨3, 7⟩ =
        RpcNode.getOutgoingConnectionsCount ⟨3, 7⟩ ∧
      RpcNode.getConnectionsCount ⟨3, 7⟩ = RpcNode.getConnectionsCount ⟨3, 99⟩ :=
  ⟨(rpc_connections_count_eq_outgoing ⟨3, 7⟩).1,
    (rpc_connections_count_eq_outgoing ⟨3, 7⟩).2 ⟨3, 99⟩ rfl⟩

/-- C4: `convertPaymentId` maps the empty string to an empty byte string
for every encoder (so the encoder is not invoked); on every non-empty
string that does not parse as a 64-character hex identifier it fails, for
every encoder, with the format error naming the offending string and the
expected length (so no encoding is performed); a failure of the encoding
step itself yields the distinct encode error; the two error kinds are
never equal. -/
theorem convertPaymentId_error_handling :
    convertPaymentId "" = .ok [] ∧
    (∀ enc, convertPaymentIdAux enc "" = .ok []) ∧
    (∀ s enc, s ≠ "" → parsePaymentId s = none →
      convertPaymentIdAux enc s = .error (.formatError
        ("Payment id has invalid format: \"" ++ s ++
          "\", expected 64-character string"))) ∧
    (∀ s pid enc, s ≠ "" → parsePaymentId s = some pid →
      enc [] (setPaymentIdToTransactionExtraNonce pid) = none →
      convertPaymentIdAux enc s = .error (.encodeError
        ("Something went wrong with payment_id. Please check its format: \"" ++
          s ++ "\", expected 64-character string"))) ∧
    (∀ m1 m2, ConvErr.formatError m1 ≠ ConvErr.encodeError m2) := by
  refine ⟨rfl, fun enc => rfl, ?_, ?_, fun m1 m2 h => by cases h⟩
  · intro s enc hne hp
    simp [convertPaymentIdAux, if_neg hne, hp]
  · intro s pid enc hne hp henc
    simp [convertPaymentIdAux, if_neg hne, hp, henc]

/-- Witness for C4: a malformed identifier fails with the format error
while an encoder failure on a well-formed identifier yields the encode
error. -/
theorem convertPaymentId_error_handling_witness :
    convertPaymentIdAux addExtraNonceToTransactionExtra "xyz" =
        .error (.formatError
          ("Payment id has invalid format: \"" ++ "xyz" ++
            "\", expected 64-character string")) ∧
      convertPaymentIdAux (fun _ _ => none) zeroPaymentIdString =
        .error (.encodeError
          ("Something went wrong with payment_id. Please check its format: \"" ++
            zeroPaymentIdString ++ "\", expected 64-character string")) :=
  ⟨convertPaymentId_error_handling.2.2.1 "xyz" addExtraNonceToTransactionExtra
      (by decide) (by decide),
    convertPaymentId_error_handling.2.2.2.1 zeroPaymentIdString NULL_HASH
      (fun _ _ => none) (by decide) (by decide) rfl⟩

/-- C5: on every byte string, `extractPaymentId` returns the hex encoding
of the embedded identifier when one is present and nonzero, the empty
string when none is embedded or the embedded identifier is the all-zero
sentinel, and it never returns the hex of the zero hash. -/
theorem extractPaymentId_spec (extra : List Nat)
    (hbytes : ∀ b ∈ extra, b < 256) :
    (∀ pid, getPaymentIdFromTxExtra extra = some pid → pid ≠ NULL_HASH →
      extractPaymentId extra = podToHex pid) ∧
    (getPaymentIdFromTxExtra extra = some NULL_HASH →
      extractPaymentId extra = "") ∧
    (getPaymentIdFromTxExtra extra = none → extractPaymentId extra = "") ∧
    extractPaymentId extra ≠ podToHex NULL_HASH := by
  refine ⟨?_, ?_, ?_, ?_⟩
  · intro pid hp hne
    simp [extractPaymentId, hp, hne]
  · intro hp
    simp [extractPaymentId, hp]
  · intro hp
    simp [extractPaymentId, hp]
  · rcases hp : getPaymentIdFromTxExtra extra with _ | pid
    · simp only [extractPaymentId, hp]
      decide
    · simp only [extractPaymentId, hp]
      split_ifs with hne
      · intro hcontra
        have hpid : ∀ b ∈ pid, b < 256 :=
          fun b hb => hbytes b (getPaymentIdFromTxExtra_mem hp b hb)
        have hzb : ∀ b ∈ NULL_HASH, b < 256 := by decide
        exact hne (bytesToHex_inj hpid hzb (congrArg String.data hcontra))
      · decide

/-- Witness for C5: a well-formed extra blob embedding a nonzero
identifier extracts to that identifier's hex. -/
theorem extractPaymentId_spec_witness :
    extractPaymentId (2 :: 33 :: 0 :: List.replicate 32 1) =
      podToHex (List.replicate 32 1) :=
  (extractPaymentId_spec (2 :: 33 :: 0 :: List.replicate 32 1) (by decide)).1
    (List.replicate 32 1)
    (@getPaymentId_encoded (List.replicate 32 1) (by decide)) (by decide)

/-- C1 counterexample: the all-zero identifier string and an uppercase
identifier string are both valid 64-character hex payment identifiers, yet
extracting after converting does not return the original string on
either. -/
theorem roundTrip_counterexample :
    (parsePaymentId zeroPaymentIdString).isSome = true ∧
      roundTrip zeroPaymentIdString ≠ some zeroPaymentIdString ∧
      (parsePaymentId upperPaymentIdString).isSome = true ∧
      roundTrip upperPaymentIdString ≠ some upperPaymentIdString := by
  have h0 : parsePaymentId zeroPaymentIdString = some NULL_HASH := by decide
  have hA : parsePaymentId upperPaymentIdString =
      some (List.replicate 32 170) := by decide
  have r0 : roundTrip zeroPaymentIdString = some "" := by
    unfold roundTrip
    rw [convert_ok h0 (by decide) (by decide)]
    simp [Except.toOption, @extract_encoded NULL_HASH (by decide)]
  have rA : roundTrip upperPaymentIdString =
      some (podToHex (List.replicate 32 170)) := by
    unfold roundTrip
    rw [convert_ok hA (by decide) (by decide)]
    simp only [Except.toOption, Option.map]
    rw [@extract_encoded (List.replicate 32 170) (by decide),
      if_pos (by decide)]
  exact ⟨by rw [h0]; rfl, by rw [r0]; decide, by rw [hA]; rfl, by rw [rA]; decide⟩

/-- C1 (amended): for every 64-character lowercase hex identifier string
that decodes to an identifier different from the all-zero sentinel,
extracting after converting returns the original string. -/
theorem convert_extract_round_trip (id : String) (pid : List Nat)
    (hp : parsePaymentId id = some pid) (hnz : pid ≠ NULL_HASH)
    (hlow : isLowerHex id = true) : roundTrip id = some id := by
  obtain ⟨h64, hbytes, hlen, hbnd⟩ := parsePaymentId_inv hp
  have hne : id ≠ "" := fun h => by
    subst h; exact absurd h64 (by decide)
  unfold roundTrip
  rw [convert_ok hp hlen hne]
  have hx : extractPaymentId (2 :: 33 :: 0 :: pid) = podToHex pid := by
    rw [extract_encoded hlen, if_pos hnz]
  have hlow' : ∀ c ∈ id.data,
      (48 ≤ c.toNat ∧ c.toNat ≤ 57) ∨ (97 ≤ c.toNat ∧ c.toNat ≤ 102) := by
    simpa [isLowerHex, List.all_eq_true, decide_eq_true_eq] using hlow
  have hfin : podToHex pid = id := by
    unfold podToHex
    rw [bytesToHex_of_hexToBytes hbytes hlow']
  simp [Except.toOption, hx, hfin]

/-- Witness for C1 on the lowercase identifier of 64 `a` digits. -/
theorem convert_extract_round_trip_witness :
    roundTrip "aaaaaaaaaaaaaaaaaaaaaaaaaaaaaaaaaaaaaaaaaaaaaaaaaaaaaaaaaaaaaaaa" =
      some "aaaaaaaaaaaaaaaaaaaaaaaaaaaaaaaaaaaaaaaaaaaaaaaaaaaaaaaaaaaaaaaa" :=
  convert_extract_round_trip
    "aaaaaaaaaaaaaaaaaaaaaaaaaaaaaaaaaaaaaaaaaaaaaaaaaaaaaaaaaaaaaaaa"
    (List.replicate 32 170) (by decide) (by decide) (by decide)

end WalletGui
